import Mathlib

/-!
Verification of the query-intent pipeline of this repository
(`ia/nlp_processor.py`, `ia/sql_generator.py`, `ia/chatbot_ai.py`,
`ia/response_generator.py`).

Python strings are modelled as `List Char`; Python string methods
(`upper`, `strip`, `count`, `replace`, `join`, substring tests) are
embedded as executable Lean functions below.  The embedding is faithful
for ASCII text plus the Spanish accented letters that actually occur in
the sources; machine floats of the scoring code are modelled as exact
rationals.
-/

/-- Python strings, modelled as lists of characters. -/
abbrev Str : Type := List Char

/-- ASCII/Latin-1 lower-casing of one character (Python `str.lower`,
restricted to the alphabet used by the repository). -/
def lowChar (c : Char) : Char :=
  if 'A' ≤ c ∧ c ≤ 'Z' then Char.ofNat (c.toNat + 32)
  else if 0xC0 ≤ c.toNat ∧ c.toNat ≤ 0xDE ∧ c.toNat ≠ 0xD7 then Char.ofNat (c.toNat + 32)
  else c

/-- ASCII upper-casing of one character (Python `str.upper`, restricted to
the ASCII letters that the validator's keyword checks rely on). -/
def upChar (c : Char) : Char :=
  if 'a' ≤ c ∧ c ≤ 'z' then Char.ofNat (c.toNat - 32) else c

/-- Python `str.upper` on a whole string. -/
def up (l : Str) : Str := l.map upChar

/-- Python `str.lower` on a whole string. -/
def low (l : Str) : Str := l.map lowChar

/-- Whitespace in the sense of Python `str.strip` / `\s`. -/
def isPySpace (c : Char) : Bool :=
  c = ' ' || c = '\t' || c = '\n' || c = '\x0d' || c = '\x0b' || c = '\x0c'

/-- Python `str.strip`: drop whitespace from both ends. -/
def pyStrip (l : Str) : Str :=
  ((l.dropWhile isPySpace).reverse.dropWhile isPySpace).reverse

/-- Auxiliary scan of Python `str.count`: walk the string left to right;
after a match, `skip` further characters still belong to the matched
occurrence and are passed over, which makes the count non-overlapping. -/
def countAux (p : Str) : Str → Nat → Nat
  | [], _ => 0
  | c :: t, 0 =>
    if p <+: c :: t then 1 + countAux p t (p.length - 1) else countAux p t 0
  | _ :: t, k + 1 => countAux p t k

/-- Python `str.count`: number of non-overlapping occurrences of `p` in `l`
(scanning left to right; the empty pattern is counted at every border). -/
def countSubstr (l p : Str) : Nat :=
  if p = [] then l.length + 1 else countAux p l 0

/-- Python `str.replace(pat, rep, 1)`: replace the first occurrence only. -/
def replaceFirst (l pat rep : Str) : Str :=
  if _hp : pat = [] then rep ++ l
  else if pat <+: l then rep ++ l.drop pat.length
  else
    match l with
    | [] => []
    | c :: t => c :: replaceFirst t pat rep

/-- Python `''.replace` with an empty pattern: the replacement is inserted
at every character border. -/
def interleaveRep (rep : Str) : Str → Str
  | [] => rep
  | c :: t => rep ++ c :: interleaveRep rep t

/-- Auxiliary scan of Python `str.replace`: walk the string left to right;
at a match emit `rep` once, then pass over the `skip` remaining characters
of the matched occurrence. -/
def replaceAllAux (pat rep : Str) : Str → Nat → Str
  | [], _ => []
  | c :: t, 0 =>
    if pat <+: c :: t then rep ++ replaceAllAux pat rep t (pat.length - 1)
    else c :: replaceAllAux pat rep t 0
  | _ :: t, k + 1 => replaceAllAux pat rep t k

/-- Python `str.replace(pat, rep)`: replace every occurrence, left to right. -/
def replaceAll (l pat rep : Str) : Str :=
  if pat = [] then interleaveRep rep l else replaceAllAux pat rep l 0

/-- Python `sep.join(parts)`. -/
def joinSep (sep : Str) : List Str → Str
  | [] => []
  | [x] => x
  | x :: y :: t => x ++ sep ++ joinSep sep (y :: t)

/-- Python `str.isdigit` (ASCII digits). -/
def isDigitStr (l : Str) : Bool :=
  decide (l ≠ []) && l.all (fun c => '0' ≤ c && c ≤ '9')

/-- Python `str.startswith`. -/
def startsWith (l p : Str) : Bool := decide (p <+: l)

/-!
Embedding of `ia/nlp_processor.py` (`NLPProcessor`).

`intents.json` is external data (it is not part of the source tree), so the
intent catalog is an arbitrary value of the shape the code reads from it:
an ordered association list from intent name to keywords and patterns.
`difflib.SequenceMatcher(None, a, b).ratio()` is a Python standard-library
collaborator; it is taken as a parameter `ratio` of the scoring functions,
about which only its documented range `[0, 1]` is assumed in the theorems.
-/

/-- Accent folding done by the `unicodedata.normalize('NFD', ...)` step of
`normalize_text` (decompose, then delete combining marks), written out for
the Spanish letters occurring in the repository's vocabulary. -/
def stripAccent (c : Char) : Char :=
  if c = 'á' then 'a' else if c = 'é' then 'e' else if c = 'í' then 'i'
  else if c = 'ó' then 'o' else if c = 'ú' then 'u' else if c = 'ü' then 'u'
  else if c = 'ñ' then 'n' else c

/-- A `\w` character of the regex `[^\w\s]` (ASCII part). -/
def isWordChar (c : Char) : Bool :=
  ('a' ≤ c && c ≤ 'z') || ('A' ≤ c && c ≤ 'Z') || ('0' ≤ c && c ≤ '9') || c = '_'

/-- The substitution `re.sub(r'[^\w\s]', ' ', text)`, character by character. -/
def punctToSpace (c : Char) : Char :=
  if isWordChar c || isPySpace c then c else ' '

/-- Auxiliary for `re.sub(r'\s+', ' ', text)`: `inRun` records whether the
scan currently stands inside a whitespace run already replaced by one
space. -/
def collapseWsAux : Str → Bool → Str
  | [], _ => []
  | c :: t, inRun =>
    if isPySpace c then
      if inRun then collapseWsAux t true else ' ' :: collapseWsAux t true
    else c :: collapseWsAux t false

/-- The substitution `re.sub(r'\s+', ' ', text)`: collapse every whitespace
run into one space. -/
def collapseWs (l : Str) : Str := collapseWsAux l false

/-- `NLPProcessor.normalize_text`: lower-case, strip accents, replace
punctuation by spaces, collapse whitespace, strip. -/
def normalize_text (text : Str) : Str :=
  pyStrip (collapseWs (((text.map lowChar).map stripAccent).map punctToSpace))

/-- One intent definition as read from `intents.json`: its keyword list and
its pattern list. -/
structure IntentData where
  keywords : List Str
  patterns : List Str

/-- `NLPProcessor._load_synonyms`, in insertion order of the Python dict
(iteration order of `self.synonyms.values()`). -/
def synonymGroups : List (List Str) :=
  [ [ "alumnos".data, "estudiante".data, "alumno".data, "educandos".data]
  , [ "docentes".data, "maestros".data, "académicos".data, "instructores".data]
  , [ "notas".data, "puntuaciones".data, "evaluaciones".data, "scores".data]
  , [ "media".data, "promedio general".data, "rendimiento".data]
  , [ "programas".data, "licenciaturas".data, "especialidades".data]
  , [ "cantidad".data, "número".data, "total".data, "qué cantidad".data]
  , [ "problemas".data, "dificultades".data, "en peligro".data, "complicaciones".data]
  , [ "datos".data, "números".data, "información".data, "métricas".data] ]

/-- Contribution of a single keyword to the keyword score of
`calculate_intent_similarity`: `1` when the normalized keyword occurs in the
normalized text, plus `0.8` for every synonym group that contains the raw
keyword and has some synonym occurring in the normalized text. -/
def keywordContribution (ntext k : Str) : ℚ :=
  (if normalize_text k <:+: ntext then (1 : ℚ) else 0) +
    (synonymGroups.map (fun g =>
      if k ∈ g ∧ g.any (fun syn => decide (syn <:+: ntext)) then (4/5 : ℚ) else 0)).sum

/-- `NLPProcessor.calculate_intent_similarity`, with machine floats modelled
as rationals and `SequenceMatcher.ratio` passed in as `ratio`. -/
def calculate_intent_similarity (ratio : Str → Str → ℚ) (text : Str)
    (d : IntentData) : ℚ :=
  let ntext := normalize_text text
  let keyword_score :=
    (d.keywords.map (keywordContribution ntext)).sum / (max d.keywords.length 1 : ℚ)
  let pattern_score :=
    d.patterns.foldl (fun acc p =>
      max acc (ratio ntext
        (normalize_text (replaceAll (replaceAll p "\x7bcarrera\x7d".data []) "\x7bnombre\x7d".data [])))) 0
  (3/5 : ℚ) * keyword_score + (2/5 : ℚ) * pattern_score

/-- `NLPProcessor.classify_intent` (the intent-name/confidence part of its
result): fold over the catalog keeping the strictly best score, then apply
the `0.3` confidence threshold with fallback `("general", 0.5)`. -/
def classify_intent (ratio : Str → Str → ℚ) (catalog : List (Str × IntentData))
    (text : Str) : Str × ℚ :=
  let best := catalog.foldl
    (fun best x =>
      let score := calculate_intent_similarity ratio text x.2
      if best.2 < score then (x.1, score) else best)
    ( "general".data, (0 : ℚ))
  if best.2 < 3/10 then ( "general".data, (1/2 : ℚ)) else best

/-!
Embedding of `ia/sql_generator.py` (`SQLGenerator`).

Entity dictionaries produced by `NLPProcessor.extract_entities` are
modelled by the `Entities` structure; a missing/empty entry is the empty
list (Python truthiness of `entities.get(...)`).
-/

/-- The entity mapping produced by `NLPProcessor.extract_entities`. -/
structure Entities where
  carreras : List Str
  cuatrimestres : List Str
  tipos_riesgo : List Str
  niveles_riesgo : List Str
  numeros : List Int
  nombres : List Str

/-- An entity mapping with no matches (also Python's literal `{}`). -/
def emptyEntities : Entities := ⟨[], [], [], [], [], []⟩

/-- A generated query specification: `query_type` `'single'` with its text
and description, or `'multiple'` with labelled query texts. -/
inductive QuerySpec where
  | single (query : Str) (description : Str)
  | multiple (queries : List (Str × Str))
deriving DecidableEq

/-- Text of `SQLGenerator._generate_fallback_query`. -/
def fallback_query_text : Str :=
  "SELECT \x27No se pudo procesar la consulta\x27 as mensaje".data

/-- `SQLGenerator._generate_fallback_query`. -/
def generate_fallback_query : QuerySpec :=
  .single fallback_query_text "Consulta de respaldo".data

/-- `SQLGenerator._generate_stats_queries`. -/
def generate_stats_queries : QuerySpec :=
  .multiple
    [ ( "total_alumnos".data,
        "SELECT COUNT(*) as total FROM alumnos WHERE estado_alumno = \x27activo\x27".data)
    , ( "total_profesores".data,
        "SELECT COUNT(*) as total FROM profesores WHERE activo = TRUE".data)
    , ( "total_carreras".data,
        "SELECT COUNT(*) as total FROM carreras WHERE activa = TRUE".data)
    , ( "promedio_general".data,
        "SELECT ROUND(AVG(promedio_general), 2) as promedio FROM alumnos WHERE estado_alumno = \x27activo\x27 AND promedio_general > 0".data) ]

/-- The `fields` list of `_generate_students_query`. -/
def students_fields : List Str :=
  [ "a.matricula".data, "u.nombre".data, "u.apellido".data,
    "c.nombre as carrera".data, "a.cuatrimestre_actual".data,
    "a.promedio_general".data, "a.estado_alumno".data]

/-- The three per-term LIKE conditions of `_generate_students_query`. -/
def studentsTermConds (t : Str) : List Str :=
  [ "u.nombre LIKE \x27%".data ++ t ++ "%\x27".data
  , "u.apellido LIKE \x27%".data ++ t ++ "%\x27".data
  , "a.matricula LIKE \x27%".data ++ t ++ "%\x27".data]

/-- The WHERE conditions accumulated by `_generate_students_query`. -/
def students_conditions (e : Entities) (ts : List Str) : List Str :=
  let conds := [ "a.estado_alumno = \x27activo\x27".data]
  let conds := match e.carreras with
    | [] => conds
    | c :: _ => conds ++ [ "c.nombre LIKE \x27%".data ++ c ++ "%\x27".data]
  let conds := match e.cuatrimestres with
    | [] => conds
    | q :: _ =>
      if isDigitStr q then conds ++ [ "a.cuatrimestre_actual = ".data ++ q]
      else conds
  match ts with
  | [] => conds
  | _ =>
    conds ++
      [ "(".data ++ joinSep " OR ".data (ts.flatMap studentsTermConds) ++ ")".data]

/-- The stripped query text assembled by `_generate_students_query`. -/
def students_query_text (e : Entities) (ts : List Str) : Str :=
  pyStrip
    ( "\n            SELECT ".data ++ joinSep ", ".data students_fields ++
      "\n            FROM alumnos a\n            JOIN usuarios u ON a.usuario_id = u.id JOIN carreras c ON a.carrera_id = c.id\n            WHERE ".data ++
      joinSep " AND ".data (students_conditions e ts) ++
      "\n            ORDER BY u.apellido, u.nombre\n            LIMIT 30\n        ".data)

/-- `SQLGenerator._generate_students_query` (its description string really
reads "Consulta de profesores" in the source). -/
def generate_students_query (e : Entities) (ts : List Str) : QuerySpec :=
  .single (students_query_text e ts) "Consulta de profesores".data

/-- The WHERE conditions accumulated by `_generate_risk_query`. -/
def risk_conditions (e : Entities) : List Str :=
  let conds := [ "r.estado IN (\x27abierto\x27, \x27en_proceso\x27)".data]
  let conds := match e.tipos_riesgo with
    | [] => conds
    | t :: _ => conds ++ [ "r.tipo_riesgo = \x27".data ++ t ++ "\x27".data]
  let conds := match e.niveles_riesgo with
    | [] => conds
    | n :: _ => conds ++ [ "r.nivel_riesgo = \x27".data ++ n ++ "\x27".data]
  match e.carreras with
  | [] => conds
  | c :: _ => conds ++ [ "c.nombre LIKE \x27%".data ++ c ++ "%\x27".data]

/-- The stripped query text assembled by `_generate_risk_query`. -/
def risk_query_text (e : Entities) : Str :=
  pyStrip
    ( "\n            SELECT ".data ++
      joinSep ", ".data
        [ "DISTINCT a.matricula".data, "u.nombre".data, "u.apellido".data,
          "c.nombre as carrera".data, "r.tipo_riesgo".data, "r.nivel_riesgo".data,
          "r.descripcion".data, "r.fecha_reporte".data] ++
      "\n            FROM reportes_riesgo r\n            JOIN alumnos a ON r.alumno_id = a.id JOIN usuarios u ON a.usuario_id = u.id JOIN carreras c ON a.carrera_id = c.id\n            WHERE ".data ++
      joinSep " AND ".data (risk_conditions e) ++
      "\n            ORDER BY r.nivel_riesgo DESC, r.fecha_reporte DESC\n            LIMIT 40\n        ".data)

/-- `SQLGenerator._generate_risk_query`. -/
def generate_risk_query (e : Entities) : QuerySpec :=
  .single (risk_query_text e) "Consulta de alumnos en riesgo".data

/-- The stripped query text assembled by `_generate_grades_query`. -/
def grades_query_text (e : Entities) : Str :=
  match e.carreras with
  | c :: _ =>
    pyStrip
      ( "\n                SELECT c.nombre as carrera,\n                       ROUND(AVG(a.promedio_general), 2) as promedio_carrera,\n                       COUNT(a.id) as total_alumnos,\n                       ROUND(MIN(a.promedio_general), 2) as promedio_minimo,\n                       ROUND(MAX(a.promedio_general), 2) as promedio_maximo\n                FROM carreras c\n                JOIN alumnos a ON c.id = a.carrera_id\n                WHERE a.estado_alumno = \x27activo\x27 \n                AND a.promedio_general > 0\n                AND c.nombre LIKE \x27%".data ++
        c ++
        "%\x27\n                GROUP BY c.id, c.nombre\n            ".data)
  | [] =>
    pyStrip
      "\n                SELECT c.nombre as carrera,\n                       ROUND(AVG(a.promedio_general), 2) as promedio_carrera,\n                       COUNT(a.id) as total_alumnos,\n                       ROUND(MIN(a.promedio_general), 2) as promedio_minimo,\n                       ROUND(MAX(a.promedio_general), 2) as promedio_maximo\n                FROM carreras c\n                JOIN alumnos a ON c.id = a.carrera_id\n                WHERE a.estado_alumno = \x27activo\x27 AND a.promedio_general > 0\n                GROUP BY c.id, c.nombre\n                ORDER BY promedio_carrera DESC\n            ".data

/-- `SQLGenerator._generate_grades_query`. -/
def generate_grades_query (e : Entities) : QuerySpec :=
  .single (grades_query_text e) "Consulta de promedios por carrera".data

/-- The `search_conditions` list built by `_generate_search_query`: three
conditions per term, where the third tests (against the list built so far)
whether the literal string `'a.matricula'` is one of its elements. -/
def search_conditions_fold (ts : List Str) : List Str :=
  ts.foldl
    (fun acc t =>
      acc ++
        [ "u.nombre LIKE \x27%".data ++ t ++ "%\x27".data
        , "u.apellido LIKE \x27%".data ++ t ++ "%\x27".data
        , if "a.matricula".data ∈ acc then
            "a.matricula LIKE \x27%".data ++ t ++ "%\x27".data
          else "\x27".data ++ t ++ "\x27 LIKE \x27%".data ++ t ++ "%\x27".data])
    []

/-- `search_clause` of `_generate_search_query` (first six conditions). -/
def search_clause (ts : List Str) : Str :=
  joinSep " OR ".data ((search_conditions_fold ts).take 6)

/-- Text before the first interpolated clause in `_generate_search_query`. -/
def search_part1 : Str :=
  "\n            SELECT \x27estudiante\x27 as tipo,\n                   a.matricula as identificador,\n                   u.nombre,\n                   u.apellido,\n                   c.nombre as carrera,\n                   a.promedio_general as dato_adicional\n            FROM alumnos a\n            JOIN usuarios u ON a.usuario_id = u.id\n            JOIN carreras c ON a.carrera_id = c.id\n            WHERE a.estado_alumno = \x27activo\x27 AND (".data

/-- Text between the two interpolated clauses in `_generate_search_query`
(this is where the `UNION ALL` connective lives). -/
def search_part2 : Str :=
  ")\n            \n            UNION ALL\n            \n            SELECT \x27profesor\x27 as tipo,\n                   p.numero_empleado as identificador,\n                   u.nombre,\n                   u.apellido,\n                   c.nombre as carrera,\n                   p.experiencia_años as dato_adicional\n            FROM profesores p\n            JOIN usuarios u ON p.usuario_id = u.id\n            JOIN carreras c ON p.carrera_id = c.id\n            WHERE p.activo = TRUE AND (".data

/-- Text after the second interpolated clause in `_generate_search_query`. -/
def search_part3 : Str :=
  ")\n            \n            ORDER BY tipo, apellido\n            LIMIT 20\n        ".data

/-- The stripped query text assembled by `_generate_search_query` for a
non-empty term list. -/
def search_query_text (ts : List Str) : Str :=
  pyStrip
    (search_part1 ++ search_clause ts ++ search_part2 ++
      replaceAll (search_clause ts) "a.matricula".data "p.numero_empleado".data ++
      search_part3)

/-- `SQLGenerator._generate_search_query` (`entities` is accepted and
ignored, as in the source). -/
def generate_search_query (_e : Entities) (ts : List Str) : QuerySpec :=
  match ts with
  | [] => generate_fallback_query
  | _ => .single (search_query_text ts) "Búsqueda específica".data

/-- `SQLGenerator._generate_general_query`. -/
def generate_general_query (ts : List Str) : QuerySpec :=
  match ts with
  | [] => generate_stats_queries
  | _ => generate_search_query emptyEntities ts

/-- A Python exception value, as far as `generate_query`'s handler can
observe one. -/
inductive PyExc where
  | attributeError
deriving DecidableEq

/-- The dispatch of `SQLGenerator.generate_query` before its
`except Exception` handler.  The `'consulta_profesores'` branch calls
`self._generate_teachers_query`, a method defined nowhere on
`SQLGenerator`, so that branch raises `AttributeError`; every other branch
is total on well-typed inputs. -/
def tryGenerateQuery (intent : Str) (e : Entities) (ts : List Str) :
    Except PyExc QuerySpec :=
  if intent = "estadisticas_generales".data then .ok generate_stats_queries
  else if intent = "consulta_alumnos".data then .ok (generate_students_query e ts)
  else if intent = "consulta_profesores".data then .error .attributeError
  else if intent = "alumnos_riesgo".data then .ok (generate_risk_query e)
  else if intent = "calificaciones_promedio".data then .ok (generate_grades_query e)
  else if intent = "busqueda_especifica".data then .ok (generate_search_query e ts)
  else .ok (generate_general_query ts)

/-- `SQLGenerator.generate_query`: the dispatch above wrapped in the
`try/except` that resolves any raised exception to the fallback spec. -/
def generate_query (intent : Str) (e : Entities) (ts : List Str) : QuerySpec :=
  match tryGenerateQuery intent e ts with
  | .ok s => s
  | .error _ => generate_fallback_query

/-- `SQLGenerator.optimize_query`. -/
def optimize_query (query : Str) : Str :=
  let query :=
    if 2 < countSubstr query "JOIN".data ∧ ¬ ("DISTINCT".data <:+: up query) then
      replaceFirst query "SELECT ".data "SELECT DISTINCT ".data
    else query
  if ¬ ("LIMIT".data <:+: up query) then query ++ " LIMIT 100".data else query

/-- The `dangerous_keywords` blacklist of `SQLGenerator.validate_query`. -/
def dangerous_keywords : List Str :=
  [ "DROP".data, "DELETE".data, "TRUNCATE".data, "ALTER".data, "CREATE".data,
    "GRANT".data, "REVOKE".data, "INSERT".data, "UPDATE".data, "EXEC".data,
    "EXECUTE".data, "CALL".data, "DECLARE".data, "UNION".data,
    "INTO OUTFILE".data, "LOAD_FILE".data, "DUMPFILE".data, "SLEEP".data,
    "BENCHMARK".data]

/-- `SQLGenerator.validate_query` (the first, reachable body; the code
after its `return True` is dead). -/
def validate_query (query : Str) : Bool :=
  let query_upper := up query
  if dangerous_keywords.any (fun k => decide (k <:+: query_upper)) then false
  else if ¬ ("SELECT".data <+: pyStrip query_upper) then false
  else if ("--".data <:+: query) ∨ ("/*".data <:+: query) ∨ ("*/".data <:+: query) then false
  else if 3 < countSubstr query_upper "SELECT".data then false
  else if 2000 < query.length then false
  else true

/-!
Embedding of the conversational state of `ia/chatbot_ai.py` (`ChatBotAI`)
and the slice of `ia/response_generator.py` that the memory claims read.
-/

/-- One entry of `self.conversation_memory[conversacion_id]` as built by
`_actualizar_memoria_conversacional` (`datetime.now().isoformat()` is an
input here). -/
structure MemoryEntry where
  timestamp : Str
  mensaje_usuario : Str
  intent_detectado : Str
  entidades : Entities
  respuesta_generada : Str

/-- The `entrada_memoria` dictionary of `_actualizar_memoria_conversacional`,
including the 100-character excerpt truncation of the response text. -/
def mkMemoryEntry (now mensaje intent : Str) (entidades : Entities)
    (respuesta : Str) : MemoryEntry :=
  ⟨now, mensaje, intent,  entidades,
    if 100 < respuesta.length then respuesta.take 100 ++ "...".data
    else respuesta⟩

/-- `self.conversation_memory`: a dictionary from conversation id to entry
list, with absent keys read as the empty list. -/
abbrev ConversationMemory := Int → List MemoryEntry

/-- The freshly initialized memory (`self.conversation_memory = {}`). -/
def emptyMemory : ConversationMemory := fun _ => []

/-- `ChatBotAI._actualizar_memoria_conversacional`: append the entry to the
conversation's list, then keep only the last ten entries (`[-10:]`). -/
def actualizar_memoria (mem : ConversationMemory) (cid : Int)
    (entry : MemoryEntry) : ConversationMemory :=
  fun j =>
    if j = cid then
      let l := mem cid ++ [entry]
      if 10 < l.length then l.drop (l.length - 10) else l
    else mem j

/-- Modelled from the spec: the `clear(conversationId)` operation of the
ConversationMemory contract (spec §4.7); the repository source under `src/`
has no per-conversation clear method (only `ConversationAI.clear_context`,
which clears an unkeyed history of a different class), so this operation is
taken from the spec's words: it empties that conversation's history. -/
def clear_memoria (mem : ConversationMemory) (cid : Int) : ConversationMemory :=
  fun j => if j = cid then [] else mem j

/-- One memory-update operation. -/
inductive MemOp where
  | append (cid : Int) (entry : MemoryEntry)
  | clear (cid : Int)

/-- Apply one memory-update operation. -/
def applyMemOp (mem : ConversationMemory) : MemOp → ConversationMemory
  | .append cid e => actualizar_memoria mem cid e
  | .clear cid => clear_memoria mem cid

/-- Apply a sequence of memory-update operations, oldest first. -/
def runMemOps (mem : ConversationMemory) (ops : List MemOp) : ConversationMemory :=
  ops.foldl applyMemOp mem

/-- The response dictionaries of `ResponseGenerator`, restricted to the
fields the conversational-context code reads:`respuesta`,
`datos_contexto['tipo_consulta']` and `recomendaciones`. -/
structure Response where
  respuesta : Str
  tipo_consulta : Str
  recomendaciones : List Str
deriving DecidableEq

/-- The continuation marker prepended by
`ChatBotAI._agregar_contexto_conversacional`. -/
def contextMarker : Str :=
  "🔄 **Continuando con el análisis anterior...**\n\n".data

/-- The follow-up suggestion appended by
`ChatBotAI._agregar_contexto_conversacional`. -/
def followUpSuggestion : Str :=
  "¿Te gustaría revisar si alguno de estos estudiantes está en riesgo?".data

/-- `ChatBotAI._agregar_contexto_conversacional`: when the memory holds
more than one entry, compare the intent of the next-to-last entry
(`memoria[-2]`, the previous message: the current message's entry was
appended in step 5, before this runs) against the response's
`tipo_consulta`; on equality prepend the marker.  Then, if the previous
intent was `'consulta_alumnos'` and the (possibly updated) response text
does not mention `riesgo`, append the follow-up suggestion. -/
def agregar_contexto_conversacional (respuesta : Response)
    (memoria : List MemoryEntry) : Response :=
  if h : 1 < memoria.length then
    let ultimo_intent :=
      (memoria.get ⟨memoria.length - 2, by omega⟩).intent_detectado
    let r1 : Str :=
      if ultimo_intent = respuesta.tipo_consulta then
        contextMarker ++ respuesta.respuesta
      else respuesta.respuesta
    let recs :=
      if ultimo_intent = "consulta_alumnos".data ∧ ¬ ("riesgo".data <:+: low r1) then
        respuesta.recomendaciones ++ [followUpSuggestion]
      else respuesta.recomendaciones
    ⟨r1, respuesta.tipo_consulta, recs⟩
  else respuesta

/-- The `datos_contexto['tipo_consulta']` label that
`ResponseGenerator.generate_response` attaches for each intent on its
normal path (for `'estadisticas_generales'` this is the label of the
`query_type == 'multiple'` branch; the other intent branches set their
label unconditionally). -/
def tipo_consulta_for (intent : Str) : Str :=
  if intent = "estadisticas_generales".data then "estadisticas_generales".data
  else if intent = "consulta_alumnos".data then "estudiantes".data
  else if intent = "consulta_profesores".data then "profesores".data
  else if intent = "alumnos_riesgo".data then "riesgo_academico".data
  else if intent = "calificaciones_promedio".data then "calificaciones".data
  else if intent = "busqueda_especifica".data then "busqueda".data
  else "general".data

/-- One database row, as `DatabaseManager.ejecutar_consulta` returns it
(a mapping from column label to value). -/
abbrev Row := List (Str × Str)

/-- Result dictionary of `ChatBotAI._ejecutar_consultas`. -/
inductive ExecResult where
  | multipleR (data : List (Str × List Row)) (total_queries : Nat)
  | singleR (data : List Row) (total_rows : Nat) (description : Str)
  | errorR (error : Str)
deriving DecidableEq

/-- `ChatBotAI._ejecutar_consultas`, with the data store passed in as the
total function `db` (execution-layer failures are outside these claims):
each query is executed only after `validate_query` accepts it, in which
case it is first passed through `optimize_query`; a rejected single query
resolves to the error/empty-result dictionary. -/
def ejecutar_consultas (db : Str → List Row) (spec : QuerySpec) : ExecResult :=
  match spec with
  | .multiple qs =>
    let resultados := qs.map fun kq =>
      (kq.1, if validate_query kq.2 then db (optimize_query kq.2) else [])
    .multipleR resultados resultados.length
  | .single q d =>
    if validate_query q then
      let result := db (optimize_query q)
      .singleR result result.length d
    else .errorR "Consulta no válida".data


/-!
General lemmas about the string model: how substring occurrence interacts
with `join`, `strip`, `upper`, appending, counting and first-occurrence
replacement.
-/

/-- An element of a joined list occurs in the join. -/
theorem joinSep_infixes_mem (sep : Str) {x : Str} {l : List Str} (h : x ∈ l) :
    x <:+: joinSep sep l := by
  induction l with
  | nil => cases h
  | cons y t ih =>
    cases t with
    | nil =>
      rw [List.mem_singleton] at h
      subst h
      exact List.infix_rfl
    | cons z t' =>
      rcases List.mem_cons.mp h with rfl | hm
      · have hpre : x <+: joinSep sep (x :: z :: t') := by
          simp only [joinSep]
          rw [List.append_assoc]
          exact List.prefix_append x (sep ++ joinSep sep (z :: t'))
        exact List.IsPrefix.isInfix hpre
      · have hsuf : joinSep sep (z :: t') <:+ joinSep sep (y :: z :: t') := by
          simp only [joinSep]
          rw [List.append_assoc]
          exact (List.suffix_append sep _).trans (List.suffix_append y _)
        exact (ih hm).trans ( List.IsSuffix.isInfix hsuf)

/-- A substring whose first character does not satisfy `f` survives
`dropWhile f`. -/
theorem isInfix_dropWhile_of_head {f : Char → Bool} {p l : Str} (hp : p ≠ [])
    (hh : f (p.head hp) = false) (h : p <:+: l) : p <:+: l.dropWhile f := by
  induction l with
  | nil =>
    rw [List.infix_nil] at h
    exact absurd h hp
  | cons c t ih =>
    rw [List.dropWhile]
    cases hfc : f c with
    | false => simpa [hfc] using h
    | true =>
      simp only [hfc]
      rcases List.infix_cons_iff.mp h with hpre | hinf
      · exfalso
        have hcons := (List.head_cons_tail p hp) ▸ hpre
        rw [List.cons_prefix_cons] at hcons
        rw [hcons.1, hfc] at hh
        exact Bool.true_eq_false.mp hh
      · exact ih hinf

/-- A substring whose end characters are not whitespace survives
Python `strip`. -/
theorem isInfix_pyStrip {p l : Str} (hp : p ≠ [])
    (hh : isPySpace (p.head hp) = false) (hl : isPySpace (p.getLast hp) = false)
    (h : p <:+: l) : p <:+: pyStrip l := by
  unfold pyStrip
  have h1 : p <:+: l.dropWhile isPySpace := isInfix_dropWhile_of_head hp hh h
  have h2 := List.IsInfix.reverse h1
  have hpr : p.reverse ≠ [] := by simpa using hp
  have hhr : isPySpace (p.reverse.head hpr) = false := by
    rw [List.head_reverse]
    exact hl
  have h3 := isInfix_dropWhile_of_head hpr hhr h2
  have h4 := List.IsInfix.reverse h3
  simpa using h4

/-- Decompose a prefix of an append. -/
theorem prefix_append_cases {α : Type} {X u v : List α} (h : X <+: u ++ v) :
    X <+: u ∨ (u <+: X ∧ X.drop u.length <+: v) := by
  induction u generalizing X with
  | nil =>
    right
    exact ⟨List.nil_prefix, by simpa using h⟩
  | cons a u' ih =>
    cases X with
    | nil => exact Or.inl List.nil_prefix
    | cons x X' =>
      rw [List.cons_append, List.cons_prefix_cons] at h
      obtain ⟨rfl, h'⟩ := h
      rcases ih h' with h1 | ⟨h2, h3⟩
      · exact Or.inl (List.cons_prefix_cons.mpr ⟨rfl, h1⟩)
      · exact Or.inr ⟨List.cons_prefix_cons.mpr ⟨rfl, h2⟩, by simpa using h3⟩

/-- Decompose an occurrence inside an append: it lies in the left part, in
the right part, or crosses the border. -/
theorem infix_append_cases {α : Type} {X u v : List α} (h : X <:+: u ++ v) :
    X <:+: u ∨ X <:+: v ∨
      ∃ X₁ X₂, X = X₁ ++ X₂ ∧ X₁ ≠ [] ∧ X₂ ≠ [] ∧ X₁ <:+ u ∧ X₂ <+: v := by
  induction u generalizing X with
  | nil =>
    right; left
    simpa using h
  | cons a u' ih =>
    rw [List.cons_append] at h
    rcases List.infix_cons_iff.mp h with hpre | hinf
    · cases X with
      | nil => exact Or.inl List.nil_infix
      | cons x X' =>
        rw [List.cons_prefix_cons] at hpre
        obtain ⟨rfl, h'⟩ := hpre
        rcases prefix_append_cases h' with h1 | ⟨h2, h3⟩
        · exact Or.inl (List.IsPrefix.isInfix (List.cons_prefix_cons.mpr ⟨rfl, h1⟩))
        · by_cases hX2 : X'.drop u'.length = []
          · left
            have hlen : X'.length ≤ u'.length := List.drop_eq_nil_iff.mp hX2
            have heq : u' = X' := h2.eq_of_length (le_antisymm h2.length_le hlen)
            subst heq
            exact List.IsPrefix.isInfix (List.prefix_refl _)
          · right; right
            obtain ⟨w, hw⟩ := h2
            have hdw : X'.drop u'.length = w := by
              rw [← hw, List.drop_left]
            refine ⟨x :: u', X'.drop u'.length, ?_, by simp, hX2,
              List.suffix_refl _, h3⟩
            rw [List.cons_append, hdw, hw]
    · rcases ih hinf with h1 | h2 | ⟨X₁, X₂, hX, hn1, hn2, hs, hpv⟩
      · exact Or.inl (h1.trans ( List.IsSuffix.isInfix (List.suffix_cons a u')))
      · exact Or.inr (Or.inl h2)
      · exact Or.inr (Or.inr ⟨X₁, X₂, hX, hn1, hn2, hs.trans (List.suffix_cons a u'), hpv⟩)

/-- If the right part of an append starts with a character that does not
occur in `X`, and `X` does not occur inside the right part, then an
occurrence of `X` in the append lies entirely in the left part. -/
theorem infix_append_left_elim {X u v : Str} (hv : v ≠ [])
    (hnm : v.head hv ∉ X) (hXv : ¬ X <:+: v) (h : X <:+: u ++ v) : X <:+: u := by
  rcases infix_append_cases h with h1 | h2 | ⟨X₁, X₂, hX, _, hn2, _, hp⟩
  · exact h1
  · exact absurd h2 hXv
  · exfalso
    apply hnm
    have hhead : X₂.head hn2 = v.head hv := by
      have hcons := (List.head_cons_tail X₂ hn2) ▸ hp
      have hvcons := (List.head_cons_tail v hv) ▸ hcons
      rw [List.cons_prefix_cons] at hvcons
      exact hvcons.1
    rw [hX]
    exact List.mem_append_right X₁ (hhead ▸ List.head_mem hn2)

/-!
Claim theorems.
-/

/-- C7: for intent `estadisticas_generales`, with any entities and search
terms, `generate_query` returns the `Multiple` spec whose labels are
exactly `total_alumnos, total_profesores, total_carreras,
promedio_general`, each mapped to an independent aggregate SELECT. -/
theorem stats_spec_labels (e : Entities) (ts : List Str) :
    generate_query "estadisticas_generales".data e ts = generate_stats_queries ∧
    ∃ qs, generate_stats_queries = QuerySpec.multiple qs ∧
      qs.map Prod.fst =
        [ "total_alumnos".data, "total_profesores".data,
          "total_carreras".data, "promedio_general".data] := by
  exact ⟨rfl, ⟨_, rfl, by decide⟩⟩

/-- C9: for intent `consulta_profesores` the dispatch calls the
never-defined method `_generate_teachers_query`, so it raises
`AttributeError`; the handler resolves this to the fallback spec, whose
text is the literal message query, so no dedicated teachers query is ever
produced. -/
theorem teachers_intent_falls_back (e : Entities) (ts : List Str) :
    tryGenerateQuery "consulta_profesores".data e ts =
      Except.error PyExc.attributeError ∧
    generate_query "consulta_profesores".data e ts = generate_fallback_query ∧
    generate_fallback_query =
      QuerySpec.single
        "SELECT \x27No se pudo procesar la consulta\x27 as mensaje".data
        "Consulta de respaldo".data := by
  exact ⟨rfl, rfl, rfl⟩

/-- C4 as stated is false: for an unrecognized intent with no search terms,
`generate_query` returns the `Multiple` statistics spec of
`_generate_general_query`, not the `Single` fallback spec. -/
theorem generate_query_unknown_intent_not_fallback :
    generate_query "intencion_desconocida".data emptyEntities [] =
      generate_stats_queries ∧
    generate_query "intencion_desconocida".data emptyEntities [] ≠
      generate_fallback_query := by
  exact ⟨rfl, by decide⟩

/-- C4 amended: whenever a branch of the dispatch raises, `generate_query`
returns the fallback `Single` spec (and, the dispatch being wrapped in
`except Exception`, no exception propagates); an unrecognized intent is
not an error: it is routed to `_generate_general_query` (the statistics
spec without search terms, the search query with them). -/
theorem generate_query_fallback_amended :
    (∀ (i : Str) (e : Entities) (ts : List Str) (exc : PyExc),
        tryGenerateQuery i e ts = Except.error exc →
          generate_query i e ts = generate_fallback_query) ∧
    (∀ (i : Str) (e : Entities) (ts : List Str),
        i ∉ [ "estadisticas_generales".data, "consulta_alumnos".data,
              "consulta_profesores".data, "alumnos_riesgo".data,
              "calificaciones_promedio".data, "busqueda_especifica".data] →
          generate_query i e ts = generate_general_query ts) := by
  constructor
  · intro i e ts exc h
    unfold generate_query
    rw [h]
  · intro i e ts h
    simp only [List.mem_cons, List.not_mem_nil, or_false, not_or] at h
    obtain ⟨h1, h2, h3, h4, h5, h6⟩ := h
    unfold generate_query tryGenerateQuery
    rw [if_neg h1, if_neg h2, if_neg h3, if_neg h4, if_neg h5, if_neg h6]

/-- Witness for the amended C4 theorem at concrete inputs. -/
theorem generate_query_fallback_amended_witness :
    generate_query "consulta_profesores".data emptyEntities [] =
      generate_fallback_query ∧
    generate_query "otra_cosa".data emptyEntities [ "ana".data] =
      generate_general_query [ "ana".data] :=
  ⟨generate_query_fallback_amended.1 "consulta_profesores".data emptyEntities []
      PyExc.attributeError rfl,
    generate_query_fallback_amended.2 "otra_cosa".data emptyEntities
      [ "ana".data] (by decide)⟩

/-- C2: `validate_query` accepts only queries that start with `SELECT`
(after upper-casing and trimming), contain no blacklisted keyword, none of
the three comment markers, at most three `SELECT` occurrences, and are at
most 2000 characters long. -/
theorem validate_query_only_if (q : Str) (h : validate_query q = true) :
    "SELECT".data <+: pyStrip (up q) ∧
    (∀ k ∈ dangerous_keywords, ¬ k <:+: up q) ∧
    ¬ ("--".data <:+: q) ∧ ¬ ("/*".data <:+: q) ∧ ¬ ("*/".data <:+: q) ∧
    countSubstr (up q) "SELECT".data ≤ 3 ∧
    q.length ≤ 2000 := by
  simp only [validate_query] at h
  split_ifs at h with h1 h2 h3 h4 h5
  refine ⟨h2, ?_, ?_, ?_, ?_, ?_, ?_⟩
  · intro k hk hinf
    exact h1 (List.any_eq_true.mpr ⟨k, hk, by simpa using hinf⟩)
  · exact fun hx => h3 (Or.inl hx)
  · exact fun hx => h3 (Or.inr (Or.inl hx))
  · exact fun hx => h3 (Or.inr (Or.inr hx))
  · exact Nat.not_lt.mp h4
  · exact Nat.not_lt.mp h5

/-- Witness for C2 at the concrete accepted query `SELECT 1`. -/
theorem validate_query_only_if_witness :
    validate_query "SELECT 1".data = true ∧
    ( "SELECT".data <+: pyStrip (up "SELECT 1".data) ∧
      (∀ k ∈ dangerous_keywords, ¬ k <:+: up "SELECT 1".data) ∧
      ¬ ("--".data <:+: "SELECT 1".data) ∧
      ¬ ("/*".data <:+: "SELECT 1".data) ∧
      ¬ ("*/".data <:+: "SELECT 1".data) ∧
      countSubstr (up "SELECT 1".data) "SELECT".data ≤ 3 ∧
      ("SELECT 1".data).length ≤ 2000) :=
  ⟨by decide, validate_query_only_if "SELECT 1".data (by decide)⟩

/-- One `_actualizar_memoria_conversacional` step keeps every
conversation's history at ten entries or fewer. -/
theorem actualizar_memoria_length_le {mem : ConversationMemory} {cid : Int}
    {e : MemoryEntry} (h : ∀ j, (mem j).length ≤ 10) :
    ∀ j, ((actualizar_memoria mem cid e) j).length ≤ 10 := by
  intro j
  unfold actualizar_memoria
  by_cases hj : j = cid
  · rw [if_pos hj]
    by_cases hlen : 10 < (mem cid ++ [e]).length
    · simp only [hlen, if_pos, List.length_drop]
      omega
    · simp only [hlen, if_neg, not_false_iff]
      omega
  · rw [if_neg hj]
    exact h j

/-- Any memory-update step preserves the ten-entry bound. -/
theorem applyMemOp_length_le {mem : ConversationMemory} {op : MemOp}
    (h : ∀ j, (mem j).length ≤ 10) :
    ∀ j, ((applyMemOp mem op) j).length ≤ 10 := by
  cases op with
  | append cid e => exact actualizar_memoria_length_le h
  | clear cid =>
    intro j
    simp only [applyMemOp, clear_memoria]
    by_cases hj : j = cid
    · simp [hj]
    · rw [if_neg hj]
      exact h j

/-- Runs of memory-update operations preserve the ten-entry bound. -/
theorem runMemOps_length_le {ops : List MemOp} :
    ∀ {mem : ConversationMemory}, (∀ j, (mem j).length ≤ 10) →
      ∀ j, ((runMemOps mem ops) j).length ≤ 10 := by
  induction ops with
  | nil => exact fun h => h
  | cons op ops ih =>
    intro mem h
    exact ih (applyMemOp_length_le h)

/-- A pure run of appends to one conversation retains exactly the last ten
appended entries, in insertion order. -/
theorem runMemOps_append_run (es : List MemoryEntry) (cid : Int) :
    runMemOps emptyMemory (es.map (MemOp.append cid)) cid =
      es.drop (es.length - 10) := by
  induction es using List.reverseRecOn with
  | nil => simp [runMemOps, emptyMemory]
  | append_singleton es e ih =>
    rw [List.map_append, List.map_singleton]
    unfold runMemOps
    rw [List.foldl_append]
    show applyMemOp (runMemOps emptyMemory (es.map (MemOp.append cid))) (MemOp.append cid e) cid =
      (es ++ [e]).drop ((es ++ [e]).length - 10)
    simp only [applyMemOp, actualizar_memoria]
    rw [if_pos trivial, ih]
    by_cases hn : es.length < 10
    · have hd0 : es.length - 10 = 0 := by omega
      rw [hd0, List.drop_zero]
      have hlen : ¬ 10 < (es ++ [e]).length := by
        simp
        omega
      rw [if_neg hlen]
      have hz : (es ++ [e]).length - 10 = 0 := by
        simp
        omega
      rw [hz, List.drop_zero]
    · have h10 : 10 ≤ es.length := by omega
      have hdlen : (es.drop (es.length - 10)).length = 10 := by
        simp
        omega
      have hlen : 10 < ((es.drop (es.length - 10)) ++ [e]).length := by
        simp [hdlen]
      rw [if_pos hlen]
      have hone : ((es.drop (es.length - 10)) ++ [e]).length - 10 = 1 := by
        simp [hdlen]
      rw [hone]
      have hle1 : (1 : Nat) ≤ (es.drop (es.length - 10)).length := by
        rw [hdlen]
        norm_num
      rw [List.drop_append_of_le_length hle1, List.drop_drop]
      have harith : es.length - 10 + 1 = es.length - 9 := by omega
      rw [harith]
      have hr : (es ++ [e]).length - 10 = es.length - 9 := by
        simp
      rw [hr]
      have hle2 : es.length - 9 ≤ es.length := by omega
      rw [List.drop_append_of_le_length hle2]

/-- C5: after any sequence of memory updates the per-conversation history
stays at ten entries or fewer; a pure run of appends retains exactly the
ten most recently appended entries in insertion order (oldest evicted
first); the clear operation empties its conversation's history. -/
theorem conversation_memory_bounded :
    (∀ (mem : ConversationMemory) (ops : List MemOp) (cid : Int),
        (∀ j, (mem j).length ≤ 10) →
          ((runMemOps mem ops) cid).length ≤ 10) ∧
    (∀ (es : List MemoryEntry) (cid : Int),
        runMemOps emptyMemory (es.map (MemOp.append cid)) cid =
          es.drop (es.length - 10)) ∧
    (∀ (mem : ConversationMemory) (cid : Int),
        applyMemOp mem (MemOp.clear cid) cid = []) := by
  refine ⟨?_, runMemOps_append_run, ?_⟩
  · intro mem ops cid h
    exact runMemOps_length_le h cid
  · intro mem cid
    simp [applyMemOp, clear_memoria]

/-- Witness for C5 at a concrete one-append run. -/
theorem conversation_memory_bounded_witness :
    ((runMemOps emptyMemory
        [MemOp.append 0 (mkMemoryEntry "t".data "hola".data "general".data
          emptyEntities "resp".data)] 0).length ≤ 10) ∧
    (runMemOps emptyMemory
        ([mkMemoryEntry "t".data "hola".data "general".data emptyEntities
            "resp".data].map (MemOp.append 0)) 0 =
      [mkMemoryEntry "t".data "hola".data "general".data emptyEntities
          "resp".data].drop
        ([mkMemoryEntry "t".data "hola".data "general".data emptyEntities
            "resp".data].length - 10)) ∧
    (applyMemOp emptyMemory (MemOp.clear 0) 0 = []) :=
  ⟨conversation_memory_bounded.1 emptyMemory
      [MemOp.append 0 (mkMemoryEntry "t".data "hola".data "general".data
        emptyEntities "resp".data)] 0 (fun j => by simp [emptyMemory]),
    conversation_memory_bounded.2.1 _ 0,
    conversation_memory_bounded.2.2 emptyMemory 0⟩

/-- C8 as stated is false: two consecutive messages classified with the
same intent (`consulta_alumnos`) do not get the continuation marker,
because the code compares the previous entry's intent name against the
response's `tipo_consulta` label, and `_generate_students_response`
labels its responses `estudiantes`, not `consulta_alumnos`. -/
theorem context_marker_missing_on_equal_intents :
    (mkMemoryEntry "t1".data "m1".data "consulta_alumnos".data emptyEntities
        "r1".data).intent_detectado =
      (mkMemoryEntry "t2".data "m2".data "consulta_alumnos".data emptyEntities
        "r2".data).intent_detectado ∧
    tipo_consulta_for "consulta_alumnos".data ≠ "consulta_alumnos".data ∧
    ¬ (contextMarker <+:
        (agregar_contexto_conversacional
          ⟨ "texto".data, tipo_consulta_for "consulta_alumnos".data, []⟩
          [ mkMemoryEntry "t1".data "m1".data "consulta_alumnos".data
              emptyEntities "r1".data,
            mkMemoryEntry "t2".data "m2".data "consulta_alumnos".data
              emptyEntities "r2".data]).respuesta) := by
  refine ⟨rfl, by decide, ?_⟩
  intro hpre
  exact absurd hpre (by decide)

/-- C8 amended: with more than one entry in the conversation's memory, the
final response text is prefixed with the continuation marker exactly when
the intent recorded in the immediately preceding memory entry equals the
response's `tipo_consulta` label (not, in general, the newly classified
intent name, since `tipo_consulta` labels differ from intent names). -/
theorem context_marker_iff_tipo_consulta (r : Response)
    (memoria : List MemoryEntry) (h : 1 < memoria.length) :
    (agregar_contexto_conversacional r memoria).respuesta =
        contextMarker ++ r.respuesta ↔
      (memoria.get ⟨memoria.length - 2, by omega⟩).intent_detectado =
        r.tipo_consulta := by
  have hfun : (agregar_contexto_conversacional r memoria).respuesta =
      if (memoria.get ⟨memoria.length - 2, by omega⟩).intent_detectado =
          r.tipo_consulta then contextMarker ++ r.respuesta
      else r.respuesta := by
    unfold agregar_contexto_conversacional
    rw [dif_pos h]
  rw [hfun]
  by_cases hc :
      (memoria.get ⟨memoria.length - 2, by omega⟩).intent_detectado =
        r.tipo_consulta
  · rw [if_pos hc]
    exact ⟨fun _ => hc, fun _ => rfl⟩
  · rw [if_neg hc]
    constructor
    · intro he
      exfalso
      have hlen := congrArg List.length he
      rw [List.length_append] at hlen
      have h0 : contextMarker.length = 0 := by omega
      exact absurd h0 (by decide)
    · intro he
      exact absurd he hc

/-- Witness for the amended C8 theorem at a concrete two-entry memory. -/
theorem context_marker_iff_tipo_consulta_witness :
    ((agregar_contexto_conversacional
        ⟨ "texto".data, "estadisticas_generales".data, []⟩
        [ mkMemoryEntry "t1".data "m1".data "estadisticas_generales".data
            emptyEntities "r1".data,
          mkMemoryEntry "t2".data "m2".data "estadisticas_generales".data
            emptyEntities "r2".data]).respuesta =
      contextMarker ++ "texto".data ↔
      (([ mkMemoryEntry "t1".data "m1".data "estadisticas_generales".data
            emptyEntities "r1".data,
          mkMemoryEntry "t2".data "m2".data "estadisticas_generales".data
            emptyEntities "r2".data] :
          List MemoryEntry).get ⟨2 - 2, by decide⟩).intent_detectado =
        "estadisticas_generales".data) :=
  context_marker_iff_tipo_consulta
    ⟨ "texto".data, "estadisticas_generales".data, []⟩
    [ mkMemoryEntry "t1".data "m1".data "estadisticas_generales".data
        emptyEntities "r1".data,
      mkMemoryEntry "t2".data "m2".data "estadisticas_generales".data
        emptyEntities "r2".data] (by decide)

/-- Extend an occurrence to the left across an append. -/
theorem infix_extend_left (l : Str) {x m : Str} (h : x <:+: m) : x <:+: l ++ m :=
  h.trans ( List.IsSuffix.isInfix (List.suffix_append l m))

/-- Extend an occurrence to the right across an append. -/
theorem infix_extend_right {x l : Str} (h : x <:+: l) (m : Str) : x <:+: l ++ m :=
  h.trans ( List.IsPrefix.isInfix (List.prefix_append l m))

/-- A blacklisted keyword occurring in the upper-cased text makes
`validate_query` reject. -/
theorem validate_false_of_keyword {q k : Str} (hk : k ∈ dangerous_keywords)
    (h : k <:+: up q) : validate_query q = false := by
  simp only [validate_query]
  rw [if_pos (List.any_eq_true.mpr ⟨k, hk, decide_eq_true h⟩)]

/-- An occurrence shaped `a ++ (t ++ b)` with non-blank outer literals
survives Python `strip`. -/
theorem isInfix_pyStrip_wrapped {a t b l : Str} (ha : a ≠ []) (hb : b ≠ [])
    (hha : isPySpace (a.head ha) = false)
    (hlb : isPySpace (b.getLast hb) = false)
    (h : a ++ (t ++ b) <:+: l) : a ++ (t ++ b) <:+: pyStrip l := by
  have hne : a ++ (t ++ b) ≠ [] := List.append_ne_nil_of_left_ne_nil ha _
  apply isInfix_pyStrip hne ?_ ?_ h
  · rw [List.head_append_left ha]
    exact hha
  · rw [List.getLast_append_right (List.append_ne_nil_of_right_ne_nil _ hb),
      List.getLast_append_right hb]
    exact hlb

/-- C3: any query text containing `DROP` in any letter case is rejected by
`validate_query`; in particular, when a free-text search term contains
`DROP`, `_generate_students_query` interpolates that term into its query
text, the text contains `DROP`, and validation rejects it, so the spec is
never executed. -/
theorem students_query_drop_rejected :
    (∀ q : Str, "DROP".data <:+: up q → validate_query q = false) ∧
    (∀ (e : Entities) (ts : List Str) (t : Str), t ∈ ts →
        "DROP".data <:+: up t →
        "DROP".data <:+: up (students_query_text e ts) ∧
        validate_query (students_query_text e ts) = false) := by
  have hkey : ∀ q : Str, "DROP".data <:+: up q → validate_query q = false :=
    fun q h => validate_false_of_keyword (by decide) h
  refine ⟨hkey, ?_⟩
  intro e ts t ht hdrop
  have hsplit : ("u.nombre LIKE \x27%".data : Str) ++ t ++ "%\x27".data =
      "u.nombre ".data ++ ("LIKE \x27%".data ++ (t ++ "%\x27".data)) := by
    rw [show ("u.nombre LIKE \x27%".data : Str) =
      "u.nombre ".data ++ "LIKE \x27%".data from by decide]
    simp [List.append_assoc]
  have helem : ("u.nombre LIKE \x27%".data ++ t ++ "%\x27".data) ∈
      ts.flatMap studentsTermConds :=
    List.mem_flatMap.mpr ⟨t, ht, by simp [studentsTermConds]⟩
  have h1 : ("LIKE \x27%".data ++ (t ++ "%\x27".data)) <:+:
      "u.nombre LIKE \x27%".data ++ t ++ "%\x27".data := by
    rw [hsplit]
    exact infix_extend_left _ List.infix_rfl
  have h2 := h1.trans (joinSep_infixes_mem " OR ".data helem)
  have h3 : ("LIKE \x27%".data ++ (t ++ "%\x27".data)) <:+: "(".data ++
      joinSep " OR ".data (ts.flatMap studentsTermConds) ++ ")".data :=
    infix_extend_right (infix_extend_left _ h2) _
  have hparen : ("(".data ++
      joinSep " OR ".data (ts.flatMap studentsTermConds) ++ ")".data) ∈
      students_conditions e ts := by
    unfold students_conditions
    cases ts with
    | nil => cases ht
    | cons a l => simp
  have h4 := h3.trans (joinSep_infixes_mem " AND ".data hparen)
  have h5 : ("LIKE \x27%".data ++ (t ++ "%\x27".data)) <:+:
      "\n            SELECT ".data ++ joinSep ", ".data students_fields ++
      "\n            FROM alumnos a\n            JOIN usuarios u ON a.usuario_id = u.id JOIN carreras c ON a.carrera_id = c.id\n            WHERE ".data ++
      joinSep " AND ".data (students_conditions e ts) ++
      "\n            ORDER BY u.apellido, u.nombre\n            LIMIT 30\n        ".data :=
    infix_extend_right (infix_extend_left _ h4) _
  have h6 : ("LIKE \x27%".data ++ (t ++ "%\x27".data)) <:+:
      students_query_text e ts := by
    unfold students_query_text
    exact isInfix_pyStrip_wrapped (by decide) (by decide) (by decide) (by decide) h5
  have h7 : "DROP".data <:+: up (students_query_text e ts) := by
    have htP : t <:+: "LIKE \x27%".data ++ (t ++ "%\x27".data) :=
      infix_extend_left _ (infix_extend_right List.infix_rfl _)
    exact (hdrop.trans (List.IsInfix.map upChar htP)).trans
      (List.IsInfix.map upChar h6)
  exact ⟨h7, hkey _ h7⟩

/-- Witness for C3 at the scenario's concrete inputs. -/
theorem students_query_drop_rejected_witness :
    validate_query "drop table alumnos".data = false ∧
    ( "DROP".data <:+:
        up (students_query_text emptyEntities [ "DROP TABLE alumnos".data]) ∧
      validate_query
        (students_query_text emptyEntities [ "DROP TABLE alumnos".data]) =
        false) :=
  ⟨students_query_drop_rejected.1 "drop table alumnos".data (by decide),
    students_query_drop_rejected.2 emptyEntities [ "DROP TABLE alumnos".data]
      "DROP TABLE alumnos".data (by decide) (by decide)⟩

set_option maxRecDepth 16000 in
/-- C10: for `busqueda_especifica` with a non-empty term list the generated
single query contains `UNION ALL`; `UNION` being blacklisted, validation
rejects it, so `_ejecutar_consultas` never runs it and resolves to the
rejected-query error result for every data store. -/
theorem search_query_union_rejected (e : Entities) (ts : List Str)
    (h : ts ≠ []) :
    "UNION ALL".data <:+: search_query_text ts ∧
    generate_query "busqueda_especifica".data e ts =
      QuerySpec.single (search_query_text ts) "Búsqueda específica".data ∧
    validate_query (search_query_text ts) = false ∧
    ∀ db : Str → List Row,
      ejecutar_consultas db (generate_query "busqueda_especifica".data e ts) =
        ExecResult.errorR "Consulta no válida".data := by
  have hsplit : search_part2 =
      ")\n            \n            ".data ++
        ("UNION ALL".data ++
          "\n            \n            SELECT \x27profesor\x27 as tipo,\n                   p.numero_empleado as identificador,\n                   u.nombre,\n                   u.apellido,\n                   c.nombre as carrera,\n                   p.experiencia_años as dato_adicional\n            FROM profesores p\n            JOIN usuarios u ON p.usuario_id = u.id\n            JOIN carreras c ON p.carrera_id = c.id\n            WHERE p.activo = TRUE AND (".data) := by
    decide
  have h2 : "UNION ALL".data <:+: search_part2 := by
    rw [hsplit]
    exact infix_extend_left _ (infix_extend_right List.infix_rfl _)
  have hraw : "UNION ALL".data <:+:
      search_part1 ++ search_clause ts ++ search_part2 ++
        replaceAll (search_clause ts) "a.matricula".data
          "p.numero_empleado".data ++ search_part3 :=
    infix_extend_right (infix_extend_right
      (infix_extend_left _ h2) _) _
  have hU : "UNION ALL".data <:+: search_query_text ts := by
    unfold search_query_text
    exact isInfix_pyStrip (by decide) (by decide) (by decide) hraw
  have hUup : "UNION".data <:+: up (search_query_text ts) := by
    have hmap := List.IsInfix.map upChar hU
    have hpre : "UNION".data <+: up "UNION ALL".data := by decide
    exact ( List.IsPrefix.isInfix hpre).trans hmap
  have hval : validate_query (search_query_text ts) = false :=
    validate_false_of_keyword (by decide) hUup
  obtain ⟨a, l, rfl⟩ : ∃ a l, ts = a :: l := by
    cases ts with
    | nil => exact absurd rfl h
    | cons a l => exact ⟨a, l, rfl⟩
  refine ⟨hU, rfl, hval, ?_⟩
  intro db
  show ejecutar_consultas db
      (QuerySpec.single (search_query_text (a :: l))
        "Búsqueda específica".data) = ExecResult.errorR "Consulta no válida".data
  simp only [ejecutar_consultas]
  rw [hval]
  simp

/-- Witness for C10 at the concrete term list `["ana"]`. -/
theorem search_query_union_rejected_witness :
    ([ "ana".data] : List Str) ≠ [] ∧
    ( "UNION ALL".data <:+: search_query_text [ "ana".data] ∧
      generate_query "busqueda_especifica".data emptyEntities [ "ana".data] =
        QuerySpec.single (search_query_text [ "ana".data])
          "Búsqueda específica".data ∧
      validate_query (search_query_text [ "ana".data]) = false ∧
      ∀ db : Str → List Row,
        ejecutar_consultas db
          (generate_query "busqueda_especifica".data emptyEntities
            [ "ana".data]) =
          ExecResult.errorR "Consulta no válida".data) :=
  ⟨by decide,
    search_query_union_rejected emptyEntities [ "ana".data] (by decide)⟩

/-- The `DISTINCT`-insertion step of `optimize_query`. -/
def optStep1 (query : Str) : Str :=
  if 2 < countSubstr query "JOIN".data ∧ ¬ ("DISTINCT".data <:+: up query) then
    replaceFirst query "SELECT ".data "SELECT DISTINCT ".data
  else query

/-- `optimize_query` is the `LIMIT` step applied after the `DISTINCT`
step. -/
theorem optimize_split (query : Str) :
    optimize_query query =
      if ¬ ("LIMIT".data <:+: up (optStep1 query)) then
        optStep1 query ++ " LIMIT 100".data
      else optStep1 query := rfl

/-- Upper-casing distributes over appending ` LIMIT 100`. -/
theorem up_append_lim (q : Str) :
    up (q ++ " LIMIT 100".data) = up q ++ " LIMIT 100".data := by
  unfold up
  rw [List.map_append]
  congr 1

/-- A `JOIN` prefix of `w ++ " LIMIT 100"` is already a prefix of `w`. -/
theorem join_prefix_elim {w : Str}
    (h : "JOIN".data <+: w ++ " LIMIT 100".data) : "JOIN".data <+: w := by
  rcases prefix_append_cases h with h1 | ⟨h2, h3⟩
  · exact h1
  · have hlen : w.length ≤ 4 := by
      have := h2.length_le
      simpa using this
    by_cases h4 : w.length = 4
    · have hw : w = "JOIN".data := h2.eq_of_length (by simp [h4])
      rw [hw]
    · exfalso
      rcases (by omega :
          w.length = 0 ∨ w.length = 1 ∨ w.length = 2 ∨ w.length = 3) with
        h0 | h0 | h0 | h0 <;>
        (rw [h0] at h3; exact absurd h3 (by decide))

/-- Appending ` LIMIT 100` does not change the scan counting `JOIN`
occurrences (no occurrence can cross into the appended tail). -/
theorem countAux_join_append :
    ∀ (n : Nat) (w : Str) (k : Nat), w.length ≤ n → k ≤ 3 →
      countAux "JOIN".data (w ++ " LIMIT 100".data) k =
        countAux "JOIN".data w k := by
  intro n
  induction n with
  | zero =>
    intro w k hw hk
    have hnil : w = [] := List.eq_nil_of_length_eq_zero (by omega)
    subst hnil
    rcases (by omega : k = 0 ∨ k = 1 ∨ k = 2 ∨ k = 3) with h0 | h0 | h0 | h0 <;>
      (subst h0; decide)
  | succ n ih =>
    intro w k hw hk
    cases w with
    | nil =>
      rcases (by omega : k = 0 ∨ k = 1 ∨ k = 2 ∨ k = 3) with h0 | h0 | h0 | h0 <;>
        (subst h0; decide)
    | cons c t =>
      rw [List.cons_append]
      have ht : t.length ≤ n := by
        have := hw
        simp only [List.length_cons] at this
        omega
      cases k with
      | zero =>
        by_cases hpre : "JOIN".data <+: c :: t
        · have hpre' : "JOIN".data <+: c :: (t ++ " LIMIT 100".data) := by
            rw [← List.cons_append]
            exact hpre.trans (List.prefix_append _ _)
          simp only [countAux, if_pos hpre, if_pos hpre']
          have hrec := ih t 3 ht (by omega)
          simp only [show ("JOIN".data).length - 1 = 3 from by decide] at *
          rw [hrec]
        · have hpre' : ¬ "JOIN".data <+: c :: (t ++ " LIMIT 100".data) := by
            intro hx
            apply hpre
            rw [← List.cons_append] at hx
            exact join_prefix_elim hx
          simp only [countAux, if_neg hpre, if_neg hpre']
          exact ih t 0 ht (by omega)
      | succ k' =>
        simp only [countAux]
        exact ih t k' ht (by omega)

/-- Appending ` LIMIT 100` does not change the `JOIN` count. -/
theorem countSubstr_join_append (q : Str) :
    countSubstr (q ++ " LIMIT 100".data) "JOIN".data =
      countSubstr q "JOIN".data := by
  unfold countSubstr
  rw [if_neg (by decide), if_neg (by decide)]
  exact countAux_join_append q.length q 0 le_rfl (by omega)

/-- `DISTINCT` occurs in the upper-cased text after appending ` LIMIT 100`
exactly when it occurred before. -/
theorem distinct_up_append (q : Str) :
    "DISTINCT".data <:+: up (q ++ " LIMIT 100".data) ↔
      "DISTINCT".data <:+: up q := by
  rw [up_append_lim]
  constructor
  · exact infix_append_left_elim (by decide) (by decide) (by decide)
  · exact fun hx => infix_extend_right hx _

/-- After appending ` LIMIT 100`, `LIMIT` occurs in the upper-cased
text. -/
theorem limit_up_append (w : Str) :
    "LIMIT".data <:+: up (w ++ " LIMIT 100".data) := by
  rw [up_append_lim]
  exact infix_extend_left _ (by decide)

/-- An occurrence of `SELECT ` in `q ++ " LIMIT 100"` lies inside `q`, or
`q` ends with `SELECT` and the trailing space is the first character of
the appended tail. -/
theorem select_space_append_cases {q : Str}
    (h : "SELECT ".data <:+: q ++ " LIMIT 100".data) :
    "SELECT ".data <:+: q ∨ "SELECT".data <:+ q := by
  rcases infix_append_cases h with h1 | h2 | ⟨X₁, X₂, hX, hn1, hn2, hs, hp⟩
  · exact Or.inl h1
  · exact absurd h2 (by decide)
  · right
    have hlen : X₁.length + X₂.length = 7 := by
      have := congrArg List.length hX
      simpa using this.symm
    have hX₂ : X₂ = ("SELECT ".data).drop X₁.length := by
      rw [hX]
      exact (List.drop_left X₁ X₂).symm
    have hX₁ : X₁ = ("SELECT ".data).take X₁.length := by
      rw [hX]
      exact (List.take_left X₁ X₂).symm
    have hk1 : 1 ≤ X₁.length := List.length_pos.mpr hn1
    have hk6 : X₁.length ≤ 6 := by
      have := List.length_pos.mpr hn2
      omega
    rcases (by omega : X₁.length = 1 ∨ X₁.length = 2 ∨ X₁.length = 3 ∨
        X₁.length = 4 ∨ X₁.length = 5 ∨ X₁.length = 6) with
      h0 | h0 | h0 | h0 | h0 | h0
    · rw [hX₂, h0] at hp
      exact absurd hp (by decide)
    · rw [hX₂, h0] at hp
      exact absurd hp (by decide)
    · rw [hX₂, h0] at hp
      exact absurd hp (by decide)
    · rw [hX₂, h0] at hp
      exact absurd hp (by decide)
    · rw [hX₂, h0] at hp
      exact absurd hp (by decide)
    · have hX1' : X₁ = "SELECT".data := by
        rw [hX₁, h0]
        decide
      exact hX1' ▸ hs

/-- `replaceFirst` is the identity when the pattern does not occur. -/
theorem replaceFirst_of_no_occurrence {l pat rep : Str} (hp : pat ≠ [])
    (h : ¬ pat <:+: l) : replaceFirst l pat rep = l := by
  induction l with
  | nil =>
    rw [replaceFirst.eq_def, dif_neg hp,
      if_neg (fun hx => hp (List.prefix_nil.mp hx))]
  | cons c t ih =>
    rw [replaceFirst.eq_def, dif_neg hp,
      if_neg (fun hx => h ( List.IsPrefix.isInfix hx))]
    show c :: replaceFirst t pat rep = c :: t
    rw [ih (fun hx => h (List.infix_cons hx))]

/-- `replaceFirst` on an occurrence: the text splits around the first
occurrence and the replacement is substituted there. -/
theorem replaceFirst_occurrence {l pat rep : Str} (hp : pat ≠ [])
    (h : pat <:+: l) :
    ∃ a b, l = a ++ (pat ++ b) ∧
      replaceFirst l pat rep = a ++ (rep ++ b) := by
  induction l with
  | nil =>
    rw [List.infix_nil] at h
    exact absurd h hp
  | cons c t ih =>
    by_cases hpre : pat <+: c :: t
    · obtain ⟨b, hb⟩ := hpre
      refine ⟨[], b, by simp [← hb], ?_⟩
      rw [replaceFirst.eq_def, dif_neg hp, if_pos ⟨b, hb⟩]
      simp only [List.nil_append]
      congr 1
      rw [← hb, List.drop_left]
    · have ht : pat <:+: t := (List.infix_cons_iff.mp h).resolve_left hpre
      obtain ⟨a, b, hl, hr⟩ := ih ht
      refine ⟨c :: a, b, by rw [List.cons_append, ← hl], ?_⟩
      rw [replaceFirst.eq_def, dif_neg hp, if_neg hpre]
      show c :: replaceFirst t pat rep = (c :: a) ++ (rep ++ b)
      rw [hr, List.cons_append]

set_option maxRecDepth 16000 in
/-- C6 as stated is false, even for a query accepted by `validate_query`:
on `SELECT* FROM a JOIN b JOIN c JOIN x WHERE col=SELECT` the first pass
appends ` LIMIT 100`, which creates the string's first `SELECT ` (with
trailing space) occurrence, and the second pass then inserts `DISTINCT`
there, so `optimize_query` is not idempotent. -/
theorem optimize_query_not_idempotent :
    validate_query
        "SELECT* FROM a JOIN b JOIN c JOIN x WHERE col=SELECT".data = true ∧
    optimize_query (optimize_query
        "SELECT* FROM a JOIN b JOIN c JOIN x WHERE col=SELECT".data) ≠
      optimize_query
        "SELECT* FROM a JOIN b JOIN c JOIN x WHERE col=SELECT".data :=
  ⟨by decide, by decide⟩

/-- C6 amended: `optimize_query` inserts `DISTINCT` after the first
`SELECT ` exactly when the query has more than two `JOIN` occurrences and
no case-insensitive `DISTINCT`, and appends ` LIMIT 100` when no
case-insensitive `LIMIT` is present; it is idempotent for every query
except those that simultaneously have more than two `JOIN`s, no
`DISTINCT`, no `LIMIT`, no occurrence of `SELECT ` and end in `SELECT`
(there the appended ` LIMIT 100` creates a fresh `SELECT ` occurrence
that the second pass rewrites). -/
theorem optimize_query_idempotent_amended (q : Str)
    (h : ¬ (2 < countSubstr q "JOIN".data ∧
            ¬ ("DISTINCT".data <:+: up q) ∧
            ¬ ("SELECT ".data <:+: q) ∧
            ¬ ("LIMIT".data <:+: up q) ∧
            "SELECT".data <:+ q)) :
    optimize_query (optimize_query q) = optimize_query q := by
  by_cases hc : 2 < countSubstr q "JOIN".data ∧
      ¬ ("DISTINCT".data <:+: up q)
  · by_cases hS : "SELECT ".data <:+: q
    · obtain ⟨a, b, hleq, hreq⟩ :=
        @replaceFirst_occurrence q "SELECT ".data "SELECT DISTINCT ".data
          (by decide) hS
      have hstep1 : optStep1 q = a ++ ("SELECT DISTINCT ".data ++ b) := by
        unfold optStep1
        rw [if_pos hc, hreq]
      have hDr : "DISTINCT".data <:+:
          up (a ++ ("SELECT DISTINCT ".data ++ b)) := by
        unfold up
        rw [List.map_append, List.map_append]
        exact infix_extend_left _ (infix_extend_right (by decide) _)
      by_cases hlr : "LIMIT".data <:+:
          up (a ++ ("SELECT DISTINCT ".data ++ b))
      · have e2 : optimize_query q = a ++ ("SELECT DISTINCT ".data ++ b) := by
          rw [optimize_split, hstep1, if_neg (not_not_intro hlr)]
        rw [e2, optimize_split]
        have hstep1r : optStep1 (a ++ ("SELECT DISTINCT ".data ++ b)) =
            a ++ ("SELECT DISTINCT ".data ++ b) := by
          unfold optStep1
          rw [if_neg (fun hx => hx.2 hDr)]
        rw [hstep1r, if_neg (not_not_intro hlr)]
      · have e2 : optimize_query q =
            (a ++ ("SELECT DISTINCT ".data ++ b)) ++ " LIMIT 100".data := by
          rw [optimize_split, hstep1, if_pos hlr]
        rw [e2, optimize_split]
        have hstep1r : optStep1
            ((a ++ ("SELECT DISTINCT ".data ++ b)) ++ " LIMIT 100".data) =
            (a ++ ("SELECT DISTINCT ".data ++ b)) ++ " LIMIT 100".data := by
          unfold optStep1
          rw [if_neg (fun hx => hx.2 ((distinct_up_append _).mpr hDr))]
        rw [hstep1r,
          if_neg (not_not_intro (limit_up_append _))]
    · have hrf : replaceFirst q "SELECT ".data "SELECT DISTINCT ".data = q :=
        replaceFirst_of_no_occurrence (by decide) hS
      have hstep1 : optStep1 q = q := by
        unfold optStep1
        rw [if_pos hc, hrf]
      by_cases hl : "LIMIT".data <:+: up q
      · have e2 : optimize_query q = q := by
          rw [optimize_split, hstep1, if_neg (not_not_intro hl)]
        rw [e2, e2]
      · have hE : ¬ ("SELECT".data <:+ q) := fun hEq =>
          h ⟨hc.1, hc.2, hS, hl, hEq⟩
        have e2 : optimize_query q = q ++ " LIMIT 100".data := by
          rw [optimize_split, hstep1, if_pos hl]
        rw [e2, optimize_split]
        have hc' : 2 < countSubstr (q ++ " LIMIT 100".data) "JOIN".data ∧
            ¬ ("DISTINCT".data <:+: up (q ++ " LIMIT 100".data)) := by
          constructor
          · rw [countSubstr_join_append]
            exact hc.1
          · intro hd
            exact hc.2 ((distinct_up_append q).mp hd)
        have hS' : ¬ ("SELECT ".data <:+: q ++ " LIMIT 100".data) := by
          intro hx
          rcases select_space_append_cases hx with h1 | h2
          · exact hS h1
          · exact hE h2
        have hstep1' : optStep1 (q ++ " LIMIT 100".data) =
            q ++ " LIMIT 100".data := by
          unfold optStep1
          rw [if_pos hc', replaceFirst_of_no_occurrence (by decide) hS']
        rw [hstep1', if_neg (not_not_intro (limit_up_append q))]
  · have hstep1 : optStep1 q = q := by
      unfold optStep1
      rw [if_neg hc]
    by_cases hl : "LIMIT".data <:+: up q
    · have e2 : optimize_query q = q := by
        rw [optimize_split, hstep1, if_neg (not_not_intro hl)]
      rw [e2, e2]
    · have e2 : optimize_query q = q ++ " LIMIT 100".data := by
        rw [optimize_split, hstep1, if_pos hl]
      rw [e2, optimize_split]
      have hc' : ¬ (2 < countSubstr (q ++ " LIMIT 100".data) "JOIN".data ∧
          ¬ ("DISTINCT".data <:+: up (q ++ " LIMIT 100".data))) := by
        intro hx
        apply hc
        constructor
        · rw [← countSubstr_join_append]
          exact hx.1
        · intro hdq
          exact hx.2 ((distinct_up_append q).mpr hdq)
      have hstep1' : optStep1 (q ++ " LIMIT 100".data) =
          q ++ " LIMIT 100".data := by
        unfold optStep1
        rw [if_neg hc']
      rw [hstep1', if_neg (not_not_intro (limit_up_append q))]

/-- Witness for the amended C6 idempotence theorem at `SELECT 1`. -/
theorem optimize_query_idempotent_amended_witness :
    (¬ (2 < countSubstr "SELECT 1".data "JOIN".data ∧
        ¬ ("DISTINCT".data <:+: up "SELECT 1".data) ∧
        ¬ ("SELECT ".data <:+: "SELECT 1".data) ∧
        ¬ ("LIMIT".data <:+: up "SELECT 1".data) ∧
        "SELECT".data <:+ "SELECT 1".data)) ∧
    optimize_query (optimize_query "SELECT 1".data) =
      optimize_query "SELECT 1".data :=
  ⟨by decide, optimize_query_idempotent_amended "SELECT 1".data (by decide)⟩

/-- A one-intent catalog on which the classifier's score exceeds 1: the
keyword `alumnos` both occurs in the text and is a member of a synonym
group with a synonym in the text, so it contributes `1 + 0.8`. -/
def nlpCatalogCex : List (Str × IntentData) :=
  [( "consulta_alumnos".data, ⟨[ "alumnos".data], []⟩ )]

/-- C1 as stated is false: on the text `alumnos` against `nlpCatalogCex`
the per-intent keyword score is `1.8 > 1` (a keyword hit is not capped
against its synonym bonus), so the returned confidence is
`0.6 * 1.8 = 1.08 > 1`. -/
theorem classify_intent_confidence_can_exceed_one :
    1 < (classify_intent (fun _ _ => 0) nlpCatalogCex "alumnos".data).2 ∧
    (classify_intent (fun _ _ => 0) nlpCatalogCex "alumnos".data).2 = 27/25 := by
  have h1 : keywordContribution (normalize_text "alumnos".data)
      "alumnos".data = 1 + (4/5 : ℚ) := by
    unfold keywordContribution
    rw [if_pos (by decide)]
    simp only [synonymGroups, List.map_cons, List.map_nil, List.sum_cons,
      List.sum_nil]
    rw [if_pos (by decide), if_neg (by decide), if_neg (by decide),
      if_neg (by decide), if_neg (by decide), if_neg (by decide),
      if_neg (by decide), if_neg (by decide)]
    norm_num
  have hsim : calculate_intent_similarity (fun _ _ => 0) "alumnos".data
      ⟨[ "alumnos".data], []⟩ = 27/25 := by
    simp only [calculate_intent_similarity, List.map_cons, List.map_nil,
      List.sum_cons, List.sum_nil, List.foldl_nil]
    rw [h1]
    norm_num
  have hclass : (classify_intent (fun _ _ => 0) nlpCatalogCex
      "alumnos".data) = ( "consulta_alumnos".data, (27/25 : ℚ)) := by
    simp only [classify_intent, nlpCatalogCex, List.foldl_cons,
      List.foldl_nil]
    rw [hsim]
    rw [if_pos (by norm_num : (( "general".data, (0 : ℚ))).2 < 27/25)]
    rw [if_neg (by norm_num : ¬ (( "consulta_alumnos".data, (27/25 : ℚ))).2 < 3/10)]
  rw [hclass]
  norm_num

/-- Elementwise-bounded rational lists have bounded sums. -/
theorem list_sum_bounds {B : ℚ} (_hB : 0 ≤ B) :
    ∀ l : List ℚ, (∀ x ∈ l, 0 ≤ x ∧ x ≤ B) →
      0 ≤ l.sum ∧ l.sum ≤ (l.length : ℚ) * B := by
  intro l
  induction l with
  | nil => intro _; simp
  | cons x t ih =>
    intro h
    have hx := h x (List.mem_cons_self x t)
    have ht := ih (fun y hy => h y (List.mem_cons_of_mem x hy))
    rw [List.sum_cons, List.length_cons]
    constructor
    · exact add_nonneg hx.1 ht.1
    · have : (((t.length : Nat) + 1 : Nat) : ℚ) * B =
          B + (t.length : ℚ) * B := by
        push_cast
        ring
      rw [this]
      exact add_le_add hx.2 ht.2

/-- One keyword contributes between `0` and `1 + 8 * 0.8 = 37/5` to the
keyword score. -/
theorem keywordContribution_bounds (nt k : Str) :
    0 ≤ keywordContribution nt k ∧ keywordContribution nt k ≤ 37/5 := by
  unfold keywordContribution
  have hsum := list_sum_bounds (by norm_num : (0 : ℚ) ≤ 4/5)
    (synonymGroups.map fun g =>
      if k ∈ g ∧ g.any (fun syn => decide (syn <:+: nt)) then (4/5 : ℚ) else 0)
    (by
      intro x hx
      rw [List.mem_map] at hx
      obtain ⟨g, _, rfl⟩ := hx
      split <;> norm_num)
  have hlen : ((synonymGroups.map fun g =>
      if k ∈ g ∧ g.any (fun syn => decide (syn <:+: nt)) then (4/5 : ℚ)
      else 0).length : ℚ) = 8 := by
    rw [List.length_map]
    norm_num [synonymGroups]
  rw [hlen] at hsum
  constructor
  · apply add_nonneg _ hsum.1
    split <;> norm_num
  · have h82 : (8 : ℚ) * (4/5) = 32/5 := by norm_num
    rw [h82] at hsum
    have : (if normalize_text k <:+: nt then (1 : ℚ) else 0) ≤ 1 := by
      split <;> norm_num
    linarith [hsum.2]

/-- The combined similarity score lies in `[0, 121/25]` whenever the
string-similarity ratio lies in `[0, 1]`. -/
theorem calculate_intent_similarity_bounds (r : Str → Str → ℚ)
    (hr : ∀ a b, 0 ≤ r a b ∧ r a b ≤ 1) (text : Str) (d : IntentData) :
    0 ≤ calculate_intent_similarity r text d ∧
      calculate_intent_similarity r text d ≤ 121/25 := by
  have hdef : calculate_intent_similarity r text d =
      (3/5 : ℚ) *
        ((d.keywords.map (keywordContribution (normalize_text text))).sum /
          max ((d.keywords.length : ℚ)) 1) +
      (2/5 : ℚ) * (d.patterns.foldl (fun acc p =>
        max acc (r (normalize_text text)
          (normalize_text (replaceAll (replaceAll p "\x7bcarrera\x7d".data [])
            "\x7bnombre\x7d".data [])))) 0) := rfl
  rw [hdef]
  have hksum := list_sum_bounds (by norm_num : (0 : ℚ) ≤ 37/5)
    (d.keywords.map (keywordContribution (normalize_text text)))
    (by
      intro x hx
      rw [List.mem_map] at hx
      obtain ⟨k, _, rfl⟩ := hx
      exact keywordContribution_bounds (normalize_text text) k)
  rw [List.length_map] at hksum
  have hm1 : (1 : ℚ) ≤ max ((d.keywords.length : ℚ)) 1 := le_max_right _ _
  have hm0 : (0 : ℚ) < max ((d.keywords.length : ℚ)) 1 := by linarith
  have hnm : ((d.keywords.length : ℚ)) ≤ max ((d.keywords.length : ℚ)) 1 :=
    le_max_left _ _
  have hks0 : 0 ≤
      (d.keywords.map (keywordContribution (normalize_text text))).sum /
        max ((d.keywords.length : ℚ)) 1 :=
    div_nonneg hksum.1 (le_of_lt hm0)
  have hks1 :
      (d.keywords.map (keywordContribution (normalize_text text))).sum /
        max ((d.keywords.length : ℚ)) 1 ≤ 37/5 := by
    rw [div_le_iff₀ hm0]
    calc (d.keywords.map (keywordContribution (normalize_text text))).sum
        ≤ (d.keywords.length : ℚ) * (37/5) := hksum.2
      _ ≤ max ((d.keywords.length : ℚ)) 1 * (37/5) := by
          apply mul_le_mul_of_nonneg_right hnm
          norm_num
      _ = 37/5 * max ((d.keywords.length : ℚ)) 1 := by ring
  have hps : ∀ (ps : List Str) (acc : ℚ), 0 ≤ acc → acc ≤ 1 →
      0 ≤ ps.foldl (fun acc p => max acc (r (normalize_text text)
        (normalize_text (replaceAll (replaceAll p "\x7bcarrera\x7d".data [])
          "\x7bnombre\x7d".data [])))) acc ∧
      ps.foldl (fun acc p => max acc (r (normalize_text text)
        (normalize_text (replaceAll (replaceAll p "\x7bcarrera\x7d".data [])
          "\x7bnombre\x7d".data [])))) acc ≤ 1 := by
    intro ps
    induction ps with
    | nil => exact fun acc h0 h1 => ⟨h0, h1⟩
    | cons p t ih =>
      intro acc h0 h1
      rw [List.foldl_cons]
      apply ih
      · exact le_max_of_le_left h0
      · exact max_le h1 (hr _ _).2
  have hpsb := hps d.patterns 0 le_rfl (by norm_num)
  constructor
  · exact add_nonneg (mul_nonneg (by norm_num) hks0)
      (mul_nonneg (by norm_num) hpsb.1)
  · have h1 := mul_le_mul_of_nonneg_left hks1 (by norm_num : (0:ℚ) ≤ 3/5)
    have h2 := mul_le_mul_of_nonneg_left hpsb.2 (by norm_num : (0:ℚ) ≤ 2/5)
    linarith

/-- C1 amended: the classifier always returns either a key of the loaded
catalog or `general`; the confidence is non-negative and bounded by
`121/25 = 4.84`, but the per-intent keyword score is not capped at 1.0 (a
keyword that matches both directly and through synonym groups contributes
up to `1 + 8 * 0.8`), so the confidence can exceed 1. -/
theorem classify_intent_range_amended (r : Str → Str → ℚ)
    (hr : ∀ a b, 0 ≤ r a b ∧ r a b ≤ 1)
    (catalog : List (Str × IntentData)) (text : Str) :
    ((classify_intent r catalog text).1 = "general".data ∨
      (classify_intent r catalog text).1 ∈ catalog.map Prod.fst) ∧
    0 ≤ (classify_intent r catalog text).2 ∧
    (classify_intent r catalog text).2 ≤ 121/25 := by
  have hfold : ∀ (cat : List (Str × IntentData)) (acc : Str × ℚ),
      0 ≤ acc.2 → acc.2 ≤ 121/25 →
      ((cat.foldl (fun best x =>
          let score := calculate_intent_similarity r text x.2
          if best.2 < score then (x.1, score) else best) acc).1 = acc.1 ∨
        (cat.foldl (fun best x =>
          let score := calculate_intent_similarity r text x.2
          if best.2 < score then (x.1, score) else best) acc).1 ∈
          cat.map Prod.fst) ∧
      0 ≤ (cat.foldl (fun best x =>
          let score := calculate_intent_similarity r text x.2
          if best.2 < score then (x.1, score) else best) acc).2 ∧
      (cat.foldl (fun best x =>
          let score := calculate_intent_similarity r text x.2
          if best.2 < score then (x.1, score) else best) acc).2 ≤ 121/25 := by
    intro cat
    induction cat with
    | nil => exact fun acc h0 h1 => ⟨Or.inl rfl, h0, h1⟩
    | cons x t ih =>
      intro acc h0 h1
      rw [List.foldl_cons]
      by_cases hlt : acc.2 < calculate_intent_similarity r text x.2
      · simp only [hlt, if_pos]
        have hb := calculate_intent_similarity_bounds r hr text x.2
        obtain ⟨hm, hrest⟩ := ih (x.1, calculate_intent_similarity r text x.2)
          hb.1 hb.2
        refine ⟨?_, hrest⟩
        rcases hm with hm | hm
        · right
          rw [List.map_cons, hm]
          exact List.mem_cons_self _ _
        · right
          rw [List.map_cons]
          exact List.mem_cons_of_mem _ hm
      · simp only [hlt, if_neg, not_false_iff]
        obtain ⟨hm, hrest⟩ := ih acc h0 h1
        refine ⟨?_, hrest⟩
        rcases hm with hm | hm
        · exact Or.inl hm
        · exact Or.inr (by rw [List.map_cons]; exact List.mem_cons_of_mem _ hm)
  unfold classify_intent
  obtain ⟨hm, h0, h1⟩ := hfold catalog ( "general".data, (0 : ℚ)) le_rfl
    (by norm_num)
  by_cases hth : (catalog.foldl (fun best x =>
      let score := calculate_intent_similarity r text x.2
      if best.2 < score then (x.1, score) else best)
      ( "general".data, (0 : ℚ))).2 < 3/10
  · rw [if_pos hth]
    exact ⟨Or.inl rfl, by norm_num, by norm_num⟩
  · rw [if_neg hth]
    exact ⟨hm, h0, h1⟩

/-- Witness for the amended C1 theorem at the concrete catalog and text of
the counterexample, with the constant-zero ratio. -/
theorem classify_intent_range_amended_witness :
    (∀ a b : Str, 0 ≤ (0 : ℚ) ∧ ((fun _ _ => (0 : ℚ)) a b) ≤ 1) ∧
    (((classify_intent (fun _ _ => 0) nlpCatalogCex "alumnos".data).1 =
        "general".data ∨
      (classify_intent (fun _ _ => 0) nlpCatalogCex "alumnos".data).1 ∈
        nlpCatalogCex.map Prod.fst) ∧
    0 ≤ (classify_intent (fun _ _ => 0) nlpCatalogCex "alumnos".data).2 ∧
    (classify_intent (fun _ _ => 0) nlpCatalogCex "alumnos".data).2 ≤ 121/25) :=
  ⟨fun _ _ => ⟨le_rfl, by norm_num⟩,
    classify_intent_range_amended (fun _ _ => 0)
      (fun _ _ => ⟨le_rfl, by norm_num⟩) nlpCatalogCex "alumnos".data⟩
